import Mathlib

/-!
Verification of the ad-presence detection engine of the dissertation
repository (file scripts/ad_detector.py).

Strings are modelled as lists of characters (List Char); the
case-insensitive regular-expression searches of the source are modelled
by lowercasing the subject with lcase and searching for the lowercased
pattern.  All network patterns except the first are plain substring
searches; the first one (googlevideo dot com, then any characters, then
adformat) is a two-part ordered search, and the DOM indicator regexes
(an optional quote, the token, an optional quote, optional whitespace,
then a colon) are modelled by the dedicated matcher matchDomAt below.

The browser-driving parts of AdDetector are embedded against an
environment describing the behaviour of the external browser: the
control flow of detect (context creation, session body, the close call
placed as the last statement of the try block, the except handler) is
translated directly from the source, while the external effects are
parameters of the environment.
-/

/-- Convert a string literal to the character-list representation. -/
def str (s : String) : List Char := s.data

/-- Lowercase every character (model of case-insensitive matching). -/
def lcase (s : List Char) : List Char := s.map Char.toLower

/-- Test whether the pattern matches at the very beginning of the text. -/
def startsWith : List Char → List Char → Bool
  | [], _ => true
  | _ :: _, [] => false
  | p :: ps, c :: cs => p == c && startsWith ps cs

/-- Test whether the pattern occurs as a contiguous substring of the
text (model of a regex search for a literal pattern). -/
def findSub (p : List Char) : List Char → Bool
  | [] => p.isEmpty
  | c :: cs => startsWith p (c :: cs) || findSub p cs

/-- Test whether some occurrence of the first pattern is followed,
possibly after other characters, by an occurrence of the second — the
model of the one network regex of the form p.*q used for the
googlevideo/adformat pattern. -/
def findSubAfter (p q : List Char) : List Char → Bool
  | [] => p.isEmpty && q.isEmpty
  | c :: cs =>
    (startsWith p (c :: cs) && findSub q (List.drop p.length (c :: cs))) ||
    findSubAfter p q cs

/-- The single-quote character, written via its code point. -/
def squote : Char := Char.ofNat 39

/-- Characters accepted by the optional-quote part of the DOM regexes. -/
def isQuote (c : Char) : Bool := c == '"' || c == squote

/-- Characters matched by the whitespace class of the DOM regexes. -/
def isSpaceChar (c : Char) : Bool :=
  c == ' ' || c == '\t' || c == '\n' || c == '\r' ||
  c == Char.ofNat 11 || c == Char.ofNat 12

/-- Test whether the text starts with optional whitespace followed by a
colon. -/
def colonAfterSpaces : List Char → Bool
  | [] => false
  | c :: cs => if isSpaceChar c then colonAfterSpaces cs else c == ':'

/-- Continuation after the indicator token: an optional closing quote,
then optional whitespace, then a colon. -/
def afterTokPart : List Char → Bool
  | [] => false
  | c :: cs => if isQuote c then colonAfterSpaces cs else colonAfterSpaces (c :: cs)

/-- Test whether a DOM indicator regex — optional quote, the token,
optional quote, optional whitespace, colon — matches at the start of the
text (the subject is already lowercased). -/
def matchDomAt (tok s : List Char) : Bool :=
  (startsWith tok s && afterTokPart (List.drop tok.length s)) ||
  (match s with
   | c :: cs => isQuote c && startsWith tok cs && afterTokPart (List.drop tok.length cs)
   | [] => false)

/-- Test whether the DOM indicator regex for the token matches anywhere
in the text (model of the search call on a DOM_INDICATORS entry). -/
def domSearch (tok : List Char) : List Char → Bool
  | [] => matchDomAt tok []
  | c :: cs => matchDomAt tok (c :: cs) || domSearch tok cs

/-- Outcome of each compiled pattern of NETWORK_AD_PATTERNS on the
lowercased URL, in the order of the source list:
googlevideo-dot-com-then-adformat, ad_break, pagead2.googlesyndication,
doubleclick.net, youtube.com/api/stats/ads, youtube.com/pagead/,
/ptracking?, adsapi.youtube.com, el=adunit, /activeview?. -/
def network_ad_pattern_hits (u : List Char) : List Bool :=
  [ findSubAfter (str "googlevideo.com") (str "adformat") u,
    findSub (str "ad_break") u,
    findSub (str "pagead2.googlesyndication") u,
    findSub (str "doubleclick.net") u,
    findSub (str "youtube.com/api/stats/ads") u,
    findSub (str "youtube.com/pagead/") u,
    findSub (str "/ptracking?") u,
    findSub (str "adsapi.youtube.com") u,
    findSub (str "el=adunit") u,
    findSub (str "/activeview?") u ]

/-- Index of the first true entry in a hit list (models the loop with a
break that records the first matching pattern in check_url_for_ads). -/
def firstTrueIndex : List Bool → Option Nat
  | [] => none
  | b :: bs => if b then some 0 else (firstTrueIndex bs).map (· + 1)

/-- Dictionary returned by check_url_for_ads.  The matched_pattern field
holds the index of the first matching pattern of NETWORK_AD_PATTERNS;
the source stores the regex text of that pattern, which the index
identifies. -/
structure UrlCheck where
  is_ad_related : Bool
  ad_break : Bool
  pagead : Bool
  doubleclick : Bool
  adunit : Bool
  activeview : Bool
  matched_pattern : Option Nat
deriving DecidableEq, Repr

/-- Model of check_url_for_ads (ad_detector.py, lines 179-204).  The
fields is_ad_related and matched_pattern come from the loop over
NETWORK_AD_PATTERNS; the five diagnostic flags are computed
unconditionally from the standalone category patterns AD_BREAK_PATTERN
(ad_break), PAGEAD_PATTERN (pagead), DOUBLECLICK_PATTERN
(doubleclick.net), ADUNIT_PATTERN (el=adunit) and ACTIVEVIEW_PATTERN
(/activeview?). -/
def check_url_for_ads (url : List Char) : UrlCheck :=
  let u := lcase url
  let hits := network_ad_pattern_hits u
  { is_ad_related := hits.any id
    ad_break := findSub (str "ad_break") u
    pagead := findSub (str "pagead") u
    doubleclick := findSub (str "doubleclick.net") u
    adunit := findSub (str "el=adunit") u
    activeview := findSub (str "/activeview?") u
    matched_pattern := firstTrueIndex hits }

/-- Dictionary returned by check_dom_for_ads. -/
structure DomCheck where
  has_adTimeOffset : Bool
  has_playerAds : Bool
deriving DecidableEq, Repr

/-- Model of check_dom_for_ads (ad_detector.py, lines 207-220).  The
input is Option because the Python argument may be None; the falsiness
guard on the argument returns the all-false record for None and for the
empty string. -/
def check_dom_for_ads : Option (List Char) → DomCheck
  | none => ⟨false, false⟩
  | some s =>
    if s = [] then ⟨false, false⟩
    else ⟨domSearch (str "adtimeoffset") (lcase s),
          domSearch (str "playerads") (lcase s)⟩

/-- Model of the DetectionMethod enum (ad_detector.py, lines 35-42). -/
inductive DetectionMethod where
  | DOM
  | NETWORK
  | UI
  | BOTH
  | CONFLICT
  | NONE
deriving DecidableEq, Repr

/-- Model of the DOMDetectionResult dataclass (ad_detector.py, lines
45-62).  raw_findings collects the per-load check_dom_for_ads records. -/
structure DOMDetectionResult where
  has_adTimeOffset : Bool
  has_playerAds : Bool
  loads_with_ads : Nat
  total_loads : Nat
  raw_findings : List DomCheck
deriving DecidableEq, Repr

/-- Dataclass field defaults: all-false, zero counters, empty list. -/
def DOMDetectionResult.init : DOMDetectionResult := ⟨false, false, 0, 0, []⟩

/-- Property has_ads of DOMDetectionResult: either variable found in any
load. -/
def DOMDetectionResult.has_ads (d : DOMDetectionResult) : Bool :=
  d.has_adTimeOffset || d.has_playerAds

/-- Model of the NetworkDetectionResult dataclass (ad_detector.py, lines
65-79). -/
structure NetworkDetectionResult where
  ad_requests_count : Nat
  ad_break_detected : Bool
  pagead_detected : Bool
  doubleclick_detected : Bool
  adunit_detected : Bool
  activeview_detected : Bool
  matched_urls : List (List Char)
deriving DecidableEq, Repr

/-- Dataclass field defaults. -/
def NetworkDetectionResult.init : NetworkDetectionResult :=
  ⟨0, false, false, false, false, false, []⟩

/-- Property has_ads of NetworkDetectionResult: ad_break is treated as
the hard network evidence. -/
def NetworkDetectionResult.has_ads (n : NetworkDetectionResult) : Bool :=
  n.ad_break_detected

/-- One entry of the raw_markers list of UIAdDetectionResult, appended
by the UI marker updates with the checkpoint context, the newly set
marker names and the badge texts. -/
structure MarkerLogEntry where
  context : List Char
  newly_detected : List (List Char)
  badge_texts : List (List Char)
deriving DecidableEq, Repr

/-- Model of the UIAdDetectionResult dataclass (ad_detector.py, lines
82-105). -/
structure UIAdDetectionResult where
  ad_label : Bool
  sponsored_label : Bool
  ad_image_view_model : Bool
  skip_button : Bool
  ad_countdown : Bool
  ad_overlay : Bool
  ad_showing_class : Bool
  raw_markers : List MarkerLogEntry
deriving DecidableEq, Repr

/-- Dataclass field defaults. -/
def UIAdDetectionResult.init : UIAdDetectionResult :=
  ⟨false, false, false, false, false, false, false, []⟩

/-- Property has_ads of UIAdDetectionResult: any over the seven marker
booleans, in the order of the source. -/
def UIAdDetectionResult.has_ads (u : UIAdDetectionResult) : Bool :=
  [u.ad_label, u.sponsored_label, u.ad_image_view_model, u.skip_button,
   u.ad_countdown, u.ad_overlay, u.ad_showing_class].any id

/-- Model of the AdDetectionResult dataclass (ad_detector.py, lines
108-118).  The verdict field is an optional bool in the source, where
none means uncertain; confidence is one of the strings low, medium,
high. -/
structure AdDetectionResult where
  video_id : List Char
  dom_result : DOMDetectionResult
  network_result : NetworkDetectionResult
  ui_result : UIAdDetectionResult
  verdict : Option Bool
  method : DetectionMethod
  confidence : String
  error : Option String
deriving DecidableEq, Repr

/-- Model of determine_verdict (ad_detector.py, lines 223-233).  The
ui_result parameter is optional with default None in the source; the
returned verdict value is a plain bool stored into the optional verdict
slot of the result, hence the some wrapper. -/
def determine_verdict (dom_result : DOMDetectionResult)
    (network_result : NetworkDetectionResult)
    (ui_result : Option UIAdDetectionResult) :
    Option Bool × DetectionMethod × String :=
  let sponsored_only :=
    match ui_result with
    | some ui => ui.sponsored_label
    | none => false
  if sponsored_only then (some true, DetectionMethod.UI, "high")
  else (some false, DetectionMethod.UI, "high")

/-- Per-page-load update of the DOM evidence record performed by
AdDetector.detect (ad_detector.py, lines 540-549): increment
total_loads, append the finding, set the sticky marker flags, and
increment loads_with_ads once when either marker is present this load
(the guard on has_adTimeOffset in the second branch prevents double
counting). -/
def dom_load_update (d : DOMDetectionResult) (c : DomCheck) : DOMDetectionResult :=
  let d1 : DOMDetectionResult :=
    { d with total_loads := d.total_loads + 1, raw_findings := d.raw_findings ++ [c] }
  let d2 : DOMDetectionResult :=
    if c.has_adTimeOffset then
      { d1 with has_adTimeOffset := true, loads_with_ads := d1.loads_with_ads + 1 }
    else d1
  if c.has_playerAds then
    { d2 with has_playerAds := true,
              loads_with_ads :=
                if c.has_adTimeOffset then d2.loads_with_ads
                else d2.loads_with_ads + 1 }
  else d2

/-- The three mutable evidence records created empty at the start of a
detect call. -/
structure Evidence where
  dom : DOMDetectionResult
  network : NetworkDetectionResult
  ui : UIAdDetectionResult
deriving DecidableEq, Repr

/-- Fresh evidence containers, as created at the top of detect. -/
def Evidence.init : Evidence :=
  ⟨DOMDetectionResult.init, NetworkDetectionResult.init, UIAdDetectionResult.init⟩

/-- Environment of one detect session: the behaviour of the external
browser.  context_setup models the context creation steps — new_context,
add_init_script, new_page — where an error value is an exception raised
before any load runs.  body models everything in the try block between a
successful context setup and the close call on the context: the per-load
loop and the captured-URL analysis.  It receives the fresh evidence
records and yields the evidence accumulated so far, the session-local
error variable as set by the per-load except handlers (those are caught
inside the loop and do not escape), and either ok or the exception that
escaped to the outer handler at that point.  The close call itself is
modelled as infallible. -/
structure DetectEnv where
  context_setup : Except String Unit
  body : Evidence → Evidence × Option String × Except String Unit

/-- Observable outcome of a detect call: the returned result plus
whether the browsing context was created and whether it was closed. -/
structure DetectOutcome where
  result : AdDetectionResult
  context_created : Bool
  context_closed : Bool
deriving Repr

/-- Assembly of the returned AdDetectionResult at the end of detect
(ad_detector.py, lines 604-622): the verdict is computed by
determine_verdict on whatever evidence was accumulated, on the success
path and on the failure path alike. -/
def mk_detection_result (video_id : List Char) (ev : Evidence)
    (error : Option String) : AdDetectionResult :=
  let v := determine_verdict ev.dom ev.network (some ev.ui)
  ⟨video_id, ev.dom, ev.network, ev.ui, v.1, v.2.1, v.2.2, error⟩

/-- Model of AdDetector.detect (ad_detector.py, lines 468-622).  The
evidence records are created empty; the try block creates the context,
runs the session body and — as its final statement, not in a finally
clause — closes the context; the except handler records the exception
message in error and leaves the context open.  The result is assembled
from the accumulated evidence in every case. -/
def AdDetector.detect (env : DetectEnv) (video_id : List Char) : DetectOutcome :=
  match env.context_setup with
  | Except.error e =>
    ⟨mk_detection_result video_id Evidence.init (some e), false, false⟩
  | Except.ok _ =>
    match env.body Evidence.init with
    | (ev, _, Except.error e) =>
      ⟨mk_detection_result video_id ev (some e), true, false⟩
    | (ev, load_error, Except.ok _) =>
      ⟨mk_detection_result video_id ev load_error, true, true⟩

/-- Observable events of a detect_batch run, in program order: one
progress event per invocation of the progress callback, carrying the
arguments passed to it — the count of completed videos, the total and
the just-produced result — and one slept event per inter-video delay. -/
inductive BatchEvent where
  | progress (done : Nat) (total : Nat) (r : AdDetectionResult)
  | slept
deriving DecidableEq, Repr

/-- Loop of AdDetector.detect_batch (ad_detector.py, lines 624-639),
running detect through detectF on the remaining IDs.  The argument i is
the absolute index of the next video and total is the length of the full
input list; a progress event is emitted only when a callback was
supplied, and the inter-video sleep runs exactly when i is below
total - 1, as in the source. -/
def detect_batch_go (detectF : List Char → AdDetectionResult)
    (has_callback : Bool) (total : Nat) :
    Nat → List (List Char) → List AdDetectionResult × List BatchEvent
  | _, [] => ([], [])
  | i, v :: vs =>
    let r := detectF v
    let rest := detect_batch_go detectF has_callback total (i + 1) vs
    (r :: rest.1,
     (if has_callback then [BatchEvent.progress (i + 1) total r] else []) ++
     (if i < total - 1 then [BatchEvent.slept] else []) ++ rest.2)

/-- Model of AdDetector.detect_batch: sequential loop over the video IDs
from index 0, returning the collected results and the event trace. -/
def AdDetector.detect_batch (detectF : List Char → AdDetectionResult)
    (has_callback : Bool) (video_ids : List (List Char)) :
    List AdDetectionResult × List BatchEvent :=
  detect_batch_go detectF has_callback video_ids.length 0 video_ids

/-- The three common quoting styles of the DOM ad-time-offset token, as
named by the specification: double-quoted, single-quoted and unquoted,
each immediately followed by a colon (all lowercased). -/
def dom_quoting_styles : List (List Char) :=
  [ ('"' :: str "adtimeoffset") ++ ['"', ':'],
    (squote :: str "adtimeoffset") ++ [squote, ':'],
    str "adtimeoffset" ++ [':'] ]

/-- Trace of a batch run as described by the specification: for each
video one progress event with the completed count, the total and the
result of that video, followed by one slept event unless the video is
the final one.  This is the specification-side description compared
against the trace of detect_batch. -/
def batch_trace_described (detectF : List Char → AdDetectionResult) (total : Nat) :
    Nat → List (List Char) → List BatchEvent
  | _, [] => []
  | i, v :: vs =>
    BatchEvent.progress (i + 1) total (detectF v) ::
      ((if vs = [] then [] else [BatchEvent.slept]) ++
        batch_trace_described detectF total (i + 1) vs)

/-- Recogniser for progress events of a batch trace. -/
def is_progress_event : BatchEvent → Bool
  | BatchEvent.progress _ _ _ => true
  | BatchEvent.slept => false

/-- Recogniser for slept events of a batch trace. -/
def is_slept_event : BatchEvent → Bool
  | BatchEvent.progress _ _ _ => false
  | BatchEvent.slept => true

/-- Sample DOM evidence whose has_ads property is true. -/
def domSample : DOMDetectionResult := ⟨true, false, 1, 1, [⟨true, false⟩]⟩

/-- Sample network evidence with the ad-break marker observed. -/
def netSample : NetworkDetectionResult := ⟨5, true, false, false, false, false, []⟩

/-- Sample UI evidence where only the sponsored label was seen. -/
def uiSponsoredOnly : UIAdDetectionResult := ⟨false, true, false, false, false, false, false, []⟩

/-- Sample UI evidence where only the ad badge label was seen. -/
def uiAdLabelOnly : UIAdDetectionResult := ⟨true, false, false, false, false, false, false, []⟩

/-- Partial evidence of an interrupted session: the DOM marker was found
before the exception, network and UI records are still fresh. -/
def evPartial : Evidence :=
  ⟨domSample, NetworkDetectionResult.init, UIAdDetectionResult.init⟩

/-- Session environment whose context setup succeeds and whose body
raises after having accumulated the partial evidence evPartial. -/
def envRaising : DetectEnv :=
  ⟨Except.ok (), fun _ => (evPartial, none, Except.error "boom")⟩

/-- Matching a pattern at the front of itself plus a tail succeeds. -/
theorem startsWith_append (p t : List Char) : startsWith p (p ++ t) = true := by
  induction p with
  | nil => rfl
  | cons c cs ih => simp [startsWith, ih]

/-- Substring search is preserved when text is prepended. -/
theorem findSub_append_left (p s x : List Char) (h : findSub p s = true) :
    findSub p (x ++ s) = true := by
  induction x with
  | nil => simpa using h
  | cons c cs ih => simp [findSub, ih]

/-- Substring search finds the pattern at the front of the text. -/
theorem findSub_here (p t : List Char) : findSub p (p ++ t) = true := by
  cases p with
  | nil => cases t <;> simp [findSub, startsWith]
  | cons c cs =>
    show (startsWith (c :: cs) ((c :: cs) ++ t) || findSub (c :: cs) (cs ++ t)) = true
    rw [startsWith_append]
    simp

/-- Substring search finds the pattern anywhere inside the text. -/
theorem findSub_infix (p x y : List Char) : findSub p (x ++ (p ++ y)) = true :=
  findSub_append_left p (p ++ y) x (findSub_here p y)

/-- Lowercasing distributes over concatenation. -/
theorem lcase_append (a b : List Char) : lcase (a ++ b) = lcase a ++ lcase b :=
  List.map_append _ a b

/-- A positional match of a DOM indicator regex yields a successful
search on any text extending it to the left. -/
theorem domSearch_of_matchAt (tok s : List Char) (h : matchDomAt tok s = true)
    (x : List Char) : domSearch tok (x ++ s) = true := by
  induction x with
  | nil =>
    cases s with
    | nil => simpa [domSearch] using h
    | cons c cs => simp [domSearch, h]
  | cons c cs ih => simp [domSearch, ih]

/-- A colon is accepted directly by the whitespace-then-colon matcher. -/
theorem colonAfterSpaces_colon (y : List Char) : colonAfterSpaces (':' :: y) = true := by
  simp [colonAfterSpaces, show isSpaceChar ':' = false from by decide]

/-- After the token, a bare colon is accepted. -/
theorem afterTokPart_colon (y : List Char) : afterTokPart (':' :: y) = true := by
  simp [afterTokPart, show isQuote ':' = false from by decide, colonAfterSpaces_colon]

/-- After the token, a closing quote followed by a colon is accepted. -/
theorem afterTokPart_quote (q : Char) (hq : isQuote q = true) (y : List Char) :
    afterTokPart (q :: ':' :: y) = true := by
  simp [afterTokPart, hq, colonAfterSpaces_colon]

/-- Each of the three quoting styles of the ad-time-offset token is a
positional match of the DOM indicator regex, whatever follows it. -/
theorem matchDomAt_style (st : List Char) (hst : st ∈ dom_quoting_styles) (y : List Char) :
    matchDomAt (str "adtimeoffset") (st ++ y) = true := by
  have hq1 : isQuote '"' = true := by decide
  have hq2 : isQuote squote = true := by decide
  simp only [dom_quoting_styles, List.mem_cons, List.mem_singleton,
             List.not_mem_nil, or_false] at hst
  rcases hst with h | h | h <;> subst h
  · simp [matchDomAt, hq1, startsWith_append, List.drop_left, afterTokPart_quote]
  · simp [matchDomAt, hq2, startsWith_append, List.drop_left, afterTokPart_quote]
  · simp [matchDomAt, startsWith_append, List.drop_left, afterTokPart_colon]

/-- Unfolding of the batch loop against the described trace: starting at
any index consistent with the total, the loop returns the mapped results
and the described event trace. -/
theorem detect_batch_go_spec (detectF : List Char → AdDetectionResult) :
    ∀ (vs : List (List Char)) (total i : Nat), i + vs.length = total →
      detect_batch_go detectF true total i vs
        = (vs.map detectF, batch_trace_described detectF total i vs) := by
  intro vs
  induction vs with
  | nil => intro total i h; rfl
  | cons v vs ih =>
    intro total i h
    have hrec := ih total (i + 1) (by simp at h; omega)
    have hco : (if i < total - 1 then [BatchEvent.slept] else [])
        = (if vs = [] then ([] : List BatchEvent) else [BatchEvent.slept]) := by
      cases vs with
      | nil =>
        simp at h
        subst h
        simp
      | cons w ws =>
        have hlt : i < total - 1 := by simp at h; omega
        simp [hlt]
    simp [detect_batch_go, batch_trace_described, hrec, hco]

/-- Number of progress events in the described trace: one per video. -/
theorem described_progress_count (detectF : List Char → AdDetectionResult) :
    ∀ (vs : List (List Char)) (total i : Nat),
      (batch_trace_described detectF total i vs).countP is_progress_event = vs.length := by
  intro vs
  induction vs with
  | nil => intro total i; rfl
  | cons v vs ih =>
    intro total i
    by_cases hvs : vs = [] <;>
      simp [batch_trace_described, hvs, List.countP_cons, List.countP_append,
            is_progress_event, ih]

/-- Number of slept events in the described trace: one per video except
the final one. -/
theorem described_slept_count (detectF : List Char → AdDetectionResult) :
    ∀ (vs : List (List Char)) (total i : Nat),
      (batch_trace_described detectF total i vs).countP is_slept_event = vs.length - 1 := by
  intro vs
  induction vs with
  | nil => intro total i; rfl
  | cons v vs ih =>
    intro total i
    cases vs with
    | nil => rfl
    | cons w ws =>
      have hih := ih total (i + 1)
      simp only [batch_trace_described, List.countP_cons, List.countP_append,
                 List.countP_nil] at hih ⊢
      simp [is_slept_event] at hih ⊢
      omega

/-- C1, counterexample.  On the evidence triple of the claim — DOM
evidence present, network ad-break observed, sponsored label false —
determine_verdict does not return the network verdict the claim states:
it returns false with method UI at high confidence, because the
implemented verdict function is a UI-only placeholder that never
consults the network or DOM evidence. -/
theorem C1_counterexample :
    domSample.has_ads = true ∧
    netSample.ad_break_detected = true ∧
    UIAdDetectionResult.init.sponsored_label = false ∧
    determine_verdict domSample netSample (some UIAdDetectionResult.init)
      = (some false, DetectionMethod.UI, "high") ∧
    determine_verdict domSample netSample (some UIAdDetectionResult.init)
      ≠ (some true, DetectionMethod.NETWORK, "high") := by
  refine ⟨rfl, rfl, rfl, rfl, ?_⟩
  decide

/-- C1, amended.  For every evidence triple in which the sponsored label
of the UI evidence is false, determine_verdict ignores the network and
DOM evidence entirely and returns the verdict false with method UI and
confidence high. -/
theorem C1_amended_thm (d : DOMDetectionResult) (n : NetworkDetectionResult)
    (u : UIAdDetectionResult) (h : u.sponsored_label = false) :
    determine_verdict d n (some u) = (some false, DetectionMethod.UI, "high") := by
  simp [determine_verdict, h]

/-- C1, witness for the amended theorem at a concrete evidence triple. -/
theorem C1_amended_witness :
    determine_verdict domSample netSample (some UIAdDetectionResult.init)
      = (some false, DetectionMethod.UI, "high") :=
  C1_amended_thm domSample netSample UIAdDetectionResult.init rfl

/-- C2.  For every evidence triple in which the sponsored label of the
UI evidence is true, determine_verdict returns the verdict true with
method UI and confidence high, regardless of the DOM and network
evidence records. -/
theorem C2_sponsored_dominates (d : DOMDetectionResult) (n : NetworkDetectionResult)
    (u : UIAdDetectionResult) (h : u.sponsored_label = true) :
    determine_verdict d n (some u) = (some true, DetectionMethod.UI, "high") := by
  simp [determine_verdict, h]

/-- C2, witness at a concrete triple with nonempty DOM and network
evidence. -/
theorem C2_witness :
    determine_verdict domSample netSample (some uiSponsoredOnly)
      = (some true, DetectionMethod.UI, "high") :=
  C2_sponsored_dominates domSample netSample uiSponsoredOnly rfl

/-- C3, counterexample.  A session whose body raises after accumulating
partial evidence: the returned result preserves the partial evidence and
records the message, but the browsing context is not closed — the close
call is the last statement of the try block, not a final step, so the
always-closed part of the claim is false. -/
theorem C3_counterexample :
    (AdDetector.detect envRaising (str "dQw4w9WgXcQ")).result.error = some "boom" ∧
    (AdDetector.detect envRaising (str "dQw4w9WgXcQ")).result.dom_result = evPartial.dom ∧
    (AdDetector.detect envRaising (str "dQw4w9WgXcQ")).context_created = true ∧
    (AdDetector.detect envRaising (str "dQw4w9WgXcQ")).context_closed = false :=
  ⟨rfl, rfl, rfl, rfl⟩

/-- C3, amended.  On any exception raised during a detect session after
context creation, the partial evidence gathered before the exception is
preserved in the returned result and the exception message is recorded
in the error field, but the context is not closed; the context is closed
only when the session body completes without an escaping exception. -/
theorem C3_amended_thm (env : DetectEnv) (vid : List Char) :
    (∀ (ev : Evidence) (le : Option String) (msg : String),
       env.context_setup = Except.ok () →
       env.body Evidence.init = (ev, le, Except.error msg) →
       (AdDetector.detect env vid).result.dom_result = ev.dom ∧
       (AdDetector.detect env vid).result.network_result = ev.network ∧
       (AdDetector.detect env vid).result.ui_result = ev.ui ∧
       (AdDetector.detect env vid).result.error = some msg ∧
       (AdDetector.detect env vid).context_closed = false) ∧
    (∀ (ev : Evidence) (le : Option String),
       env.context_setup = Except.ok () →
       env.body Evidence.init = (ev, le, Except.ok ()) →
       (AdDetector.detect env vid).result.error = le ∧
       (AdDetector.detect env vid).context_closed = true) := by
  constructor
  · intro ev le msg h1 h2
    simp [AdDetector.detect, h1, h2, mk_detection_result]
  · intro ev le h1 h2
    simp [AdDetector.detect, h1, h2, mk_detection_result]

/-- C3, witness for the amended theorem at a concrete raising session. -/
theorem C3_amended_witness :
    (AdDetector.detect envRaising (str "aqz-KE-bpKQ")).result.ui_result = evPartial.ui ∧
    (AdDetector.detect envRaising (str "aqz-KE-bpKQ")).context_closed = false := by
  have h := (C3_amended_thm envRaising (str "aqz-KE-bpKQ")).1 evPartial none "boom" rfl rfl
  exact ⟨h.2.2.1, h.2.2.2.2⟩

/-- C4, counterexample.  A URL on which no pattern of
NETWORK_AD_PATTERNS matches but whose pagead diagnostic flag is set:
the standalone pagead category regex is broader than the two pagead
network patterns, so the all-flags-false part of the claim is false. -/
theorem C4_counterexample :
    (network_ad_pattern_hits (lcase (str "https://example.com/pagead"))).any id = false ∧
    (check_url_for_ads (str "https://example.com/pagead")).is_ad_related = false ∧
    (check_url_for_ads (str "https://example.com/pagead")).pagead = true := by
  refine ⟨by decide, by decide, by decide⟩

/-- C4, amended.  For every URL on which no pattern of the fixed
ad-pattern list NETWORK_AD_PATTERNS matches, check_url_for_ads returns
is_ad_related false, no matched pattern, and the diagnostic flags
ad_break, doubleclick, adunit and activeview all false; the pagead flag
alone may still be true, and equals the standalone pagead substring
search on the lowercased URL. -/
theorem C4_amended_thm (url : List Char)
    (h : (network_ad_pattern_hits (lcase url)).any id = false) :
    (check_url_for_ads url).is_ad_related = false ∧
    (check_url_for_ads url).matched_pattern = none ∧
    (check_url_for_ads url).ad_break = false ∧
    (check_url_for_ads url).doubleclick = false ∧
    (check_url_for_ads url).adunit = false ∧
    (check_url_for_ads url).activeview = false ∧
    (check_url_for_ads url).pagead = findSub (str "pagead") (lcase url) := by
  simp [network_ad_pattern_hits] at h
  obtain ⟨h0, h1, h2, h3, h4, h5, h6, h7, h8, h9⟩ := h
  simp [check_url_for_ads, network_ad_pattern_hits, firstTrueIndex,
        h0, h1, h2, h3, h4, h5, h6, h7, h8, h9]

/-- C4, witness for the amended theorem at a plain watch-page URL. -/
theorem C4_amended_witness :
    (check_url_for_ads (str "https://www.youtube.com/watch?v=dQw4w9WgXcQ")).is_ad_related = false ∧
    (check_url_for_ads (str "https://www.youtube.com/watch?v=dQw4w9WgXcQ")).matched_pattern = none ∧
    (check_url_for_ads (str "https://www.youtube.com/watch?v=dQw4w9WgXcQ")).ad_break = false ∧
    (check_url_for_ads (str "https://www.youtube.com/watch?v=dQw4w9WgXcQ")).doubleclick = false ∧
    (check_url_for_ads (str "https://www.youtube.com/watch?v=dQw4w9WgXcQ")).adunit = false ∧
    (check_url_for_ads (str "https://www.youtube.com/watch?v=dQw4w9WgXcQ")).activeview = false ∧
    (check_url_for_ads (str "https://www.youtube.com/watch?v=dQw4w9WgXcQ")).pagead
      = findSub (str "pagead") (lcase (str "https://www.youtube.com/watch?v=dQw4w9WgXcQ")) :=
  C4_amended_thm (str "https://www.youtube.com/watch?v=dQw4w9WgXcQ") (by decide)

/-- C5.  For every URL containing the ad-break query marker in any
letter case — that is, any URL splitting as a prefix, a fragment whose
lowercasing is the marker ad_break, and a suffix — check_url_for_ads
sets the ad_break diagnostic flag and reports the URL as ad-related. -/
theorem C5_ad_break (url a w b : List Char)
    (hsplit : url = a ++ w ++ b) (hw : lcase w = str "ad_break") :
    (check_url_for_ads url).ad_break = true ∧
    (check_url_for_ads url).is_ad_related = true := by
  have hu : lcase url = lcase a ++ (str "ad_break" ++ lcase b) := by
    rw [hsplit, List.append_assoc, lcase_append, lcase_append, hw]
  have hb : findSub (str "ad_break") (lcase url) = true := by
    rw [hu]; exact findSub_infix _ _ _
  refine ⟨?_, ?_⟩
  · simpa [check_url_for_ads] using hb
  · simp [check_url_for_ads, network_ad_pattern_hits, hb]

/-- C5, witness at an upper-case occurrence of the marker. -/
theorem C5_witness :
    (check_url_for_ads (str "https://youtube.com/x?AD_BREAK=1")).ad_break = true ∧
    (check_url_for_ads (str "https://youtube.com/x?AD_BREAK=1")).is_ad_related = true :=
  C5_ad_break (str "https://youtube.com/x?AD_BREAK=1")
    (str "https://youtube.com/x?") (str "AD_BREAK") (str "=1")
    (by decide) (by decide)

/-- C6.  For every markup string containing the ad-time-offset token
followed by a colon in any of the common quoting styles — double-quoted,
single-quoted or unquoted, in any letter case — check_dom_for_ads
reports has_adTimeOffset true; and for an empty or absent markup string
it reports both DOM flags false. -/
theorem C6_dom (markup a w b : List Char)
    (hsplit : markup = a ++ w ++ b) (hw : lcase w ∈ dom_quoting_styles) :
    (check_dom_for_ads (some markup)).has_adTimeOffset = true ∧
    check_dom_for_ads (some []) = ⟨false, false⟩ ∧
    check_dom_for_ads none = ⟨false, false⟩ := by
  refine ⟨?_, rfl, rfl⟩
  have hwne : w ≠ [] := by
    intro h
    rw [h] at hw
    exact absurd hw (by decide)
  have hne : markup ≠ [] := by
    rw [hsplit]
    simp [hwne]
  have hu : lcase markup = lcase a ++ (lcase w ++ lcase b) := by
    rw [hsplit, List.append_assoc, lcase_append, lcase_append]
  have hds : domSearch (str "adtimeoffset") (lcase markup) = true := by
    rw [hu]
    exact domSearch_of_matchAt _ _ (matchDomAt_style _ hw (lcase b)) (lcase a)
  simp [check_dom_for_ads, hne, hds]

/-- C6, witness at a concrete markup string with the unquoted style. -/
theorem C6_witness :
    (check_dom_for_ads (some (str "\x7b adTimeOffset: 5 \x7d"))).has_adTimeOffset = true ∧
    check_dom_for_ads (some []) = ⟨false, false⟩ ∧
    check_dom_for_ads none = ⟨false, false⟩ :=
  C6_dom (str "\x7b adTimeOffset: 5 \x7d") (str "\x7b ") (str "adTimeOffset:")
    (str " 5 \x7d") (by decide) (by decide)

/-- C7, counterexample.  A UI evidence record with only the ad badge
label set has has_ads true while sponsored_label is false, so has_ads
does not equal the sponsored_label field alone. -/
theorem C7_counterexample :
    uiAdLabelOnly.has_ads ≠ uiAdLabelOnly.sponsored_label ∧
    uiAdLabelOnly.has_ads = true ∧
    uiAdLabelOnly.sponsored_label = false := by
  refine ⟨by decide, rfl, rfl⟩

/-- C7, amended.  The derived has_ads flag of the UI evidence record is
the disjunction of all seven marker booleans: it is true exactly when at
least one marker was seen, not when the sponsored label alone was. -/
theorem C7_amended_thm (u : UIAdDetectionResult) :
    u.has_ads = (u.ad_label || (u.sponsored_label || (u.ad_image_view_model ||
      (u.skip_button || (u.ad_countdown || (u.ad_overlay || u.ad_showing_class)))))) := by
  simp [UIAdDetectionResult.has_ads]

/-- C8.  The DOM evidence invariant — loads_with_ads bounded by
total_loads — holds for the initial record and is preserved by every
page-load update, including a load in which both markers are found, and
both counters never decrease across an update. -/
theorem C8_dom_invariant :
    DOMDetectionResult.init.loads_with_ads ≤ DOMDetectionResult.init.total_loads ∧
    ∀ (d : DOMDetectionResult) (c : DomCheck),
      d.loads_with_ads ≤ d.total_loads →
      (dom_load_update d c).loads_with_ads ≤ (dom_load_update d c).total_loads ∧
      d.loads_with_ads ≤ (dom_load_update d c).loads_with_ads ∧
      d.total_loads ≤ (dom_load_update d c).total_loads := by
  refine ⟨Nat.le_refl 0, ?_⟩
  intro d c h
  obtain ⟨ato, pa⟩ := c
  cases ato <;> cases pa <;> simp [dom_load_update] <;> omega

/-- C8, witness at a load in which both markers are found. -/
theorem C8_dom_invariant_witness :
    (dom_load_update DOMDetectionResult.init ⟨true, true⟩).loads_with_ads ≤
      (dom_load_update DOMDetectionResult.init ⟨true, true⟩).total_loads :=
  (C8_dom_invariant.2 DOMDetectionResult.init ⟨true, true⟩ (by decide)).1

/-- C9.  For every input list of video IDs, detect_batch returns exactly
as many results as there are IDs, ordered identically to the input list;
with a callback supplied its event trace is the described trace — one
progress callback invocation per video with the completed count, the
total and the just-produced result, and the inter-video delay after
every video except the final one — so the callback fires exactly once
per video and there is one sleep fewer than there are videos. -/
theorem C9_detect_batch (detectF : List Char → AdDetectionResult)
    (video_ids : List (List Char)) :
    (AdDetector.detect_batch detectF true video_ids).1 = video_ids.map detectF ∧
    (AdDetector.detect_batch detectF true video_ids).1.length = video_ids.length ∧
    (AdDetector.detect_batch detectF true video_ids).2
      = batch_trace_described detectF video_ids.length 0 video_ids ∧
    (AdDetector.detect_batch detectF true video_ids).2.countP is_progress_event
      = video_ids.length ∧
    (AdDetector.detect_batch detectF true video_ids).2.countP is_slept_event
      = video_ids.length - 1 := by
  have hspec := detect_batch_go_spec detectF video_ids video_ids.length 0 (by simp)
  unfold AdDetector.detect_batch
  rw [hspec]
  refine ⟨rfl, by simp, rfl, ?_, ?_⟩
  · exact described_progress_count detectF video_ids video_ids.length 0
  · exact described_slept_count detectF video_ids video_ids.length 0

/-- C10.  The output of determine_verdict depends only on the
sponsored_label field of the UI evidence: any two evidence triples
agreeing on that field produce identical outputs, and the output always
has a non-null boolean verdict, method UI and confidence high. -/
theorem C10_verdict_uniformity :
    (∀ (d dd : DOMDetectionResult) (n nn : NetworkDetectionResult)
       (u uu : UIAdDetectionResult),
       u.sponsored_label = uu.sponsored_label →
       determine_verdict d n (some u) = determine_verdict dd nn (some uu)) ∧
    (∀ (d : DOMDetectionResult) (n : NetworkDetectionResult) (u : UIAdDetectionResult),
       (determine_verdict d n (some u)).1 ≠ none ∧
       (determine_verdict d n (some u)).2.1 = DetectionMethod.UI ∧
       (determine_verdict d n (some u)).2.2 = "high") := by
  constructor
  · intro d dd n nn u uu h
    simp [determine_verdict, h]
  · intro d n u
    cases hu : u.sponsored_label <;> simp [determine_verdict, hu]

/-- C10, witness at two concrete triples that differ everywhere except
in the sponsored label. -/
theorem C10_witness :
    determine_verdict domSample netSample (some UIAdDetectionResult.init)
      = determine_verdict DOMDetectionResult.init NetworkDetectionResult.init
          (some uiAdLabelOnly) :=
  C10_verdict_uniformity.1 domSample DOMDetectionResult.init netSample
    NetworkDetectionResult.init UIAdDetectionResult.init uiAdLabelOnly rfl
